import Mathlib

set_option maxHeartbeats 1000000

/-!
Shallow embedding of the finance_tracker repository (src/categorizer.py,
src/insights.py, src/utils.py) and verification of the frozen claims.

Conventions of the embedding:
* Python strings are Lean `String`; `pat in s` (substring test) is list-infix
  on the character lists.
* Currency amounts are `ℚ` (exact arithmetic stands in for Python floats; every
  numeric comparison the claims touch is far from any floating-point boundary).
* Effectful library calls (the remote chat-completion request, the sklearn
  `fit_transform` / fitted-model pair) are passed in as explicit `Except`-valued
  oracle arguments: the code under analysis only branches on whether the call
  raised and on the returned value, which the oracle captures exactly.
* Mutable attributes of `ExpenseCategorizer` (`openai_client`, `ml_model`,
  `vectorizer`) live in an explicit state record `CatState`; methods that
  assign to `self` return the new state.
-/

namespace FinanceTracker

/-! ## Rule classifier — src/categorizer.py lines 21-50 -/

/-- `self.categories` from `ExpenseCategorizer.__init__` (lines 21-24). -/
def categories : List String :=
  ["Food", "Transport", "Entertainment", "Shopping",
   "Utilities", "Healthcare", "Education", "Others"]

/-- `self.category_patterns` from `__init__` (lines 32-40); a Python 3.7+ dict
preserves insertion order, so the list order is the dict's iteration order. -/
def category_patterns : List (String × List String) :=
  [("Food", ["restaurant", "food", "cafe", "starbucks", "mcdonald", "pizza",
             "grocery", "supermarket"]),
   ("Transport", ["uber", "taxi", "gas", "fuel", "parking", "metro", "bus",
                  "train"]),
   ("Entertainment", ["netflix", "spotify", "movie", "cinema", "game",
                      "concert", "theater"]),
   ("Shopping", ["amazon", "mall", "store", "shop", "purchase", "buy",
                 "clothes"]),
   ("Utilities", ["electric", "water", "internet", "phone", "rent", "bill"]),
   ("Healthcare", ["hospital", "doctor", "pharmacy", "medical", "dental",
                   "health"]),
   ("Education", ["school", "college", "course", "book", "education",
                  "tuition"])]

/-- Python's `str.lower()` (character-wise, via the string's character
list — `String.toLower` itself is not kernel-reducible). -/
def lowerStr (s : String) : String :=
  ⟨s.data.map Char.toLower⟩

/-- Python's `str.strip()`: drop whitespace from both ends. -/
def trimStr (s : String) : String :=
  ⟨((s.data.dropWhile Char.isWhitespace).reverse.dropWhile
      Char.isWhitespace).reverse⟩

/-- Python's `pat in s` on strings: `pat` occurs as a contiguous substring. -/
def containsPat (s pat : String) : Bool :=
  decide (pat.toList <:+: s.toList)

/-- The double loop of `rule_based_categorization` (lines 46-50): walk the
pattern table in order, return the first category one of whose patterns occurs
in the (already lowercased) description, else `Others`. -/
def firstMatch : List (String × List String) → String → String
  | [], _ => "Others"
  | (c, ps) :: rest, d =>
      if ps.any (fun p => containsPat d p) then c else firstMatch rest d

/-- `ExpenseCategorizer.rule_based_categorization` (lines 42-50). -/
def rule_based_categorization (description : String) : String :=
  firstMatch category_patterns (lowerStr description)

/-! ## Classifier state — the mutable attributes of `ExpenseCategorizer` -/

/-- A TF-IDF vectorizer object: freshly constructed (`TfidfVectorizer(...)`,
not yet fitted) or fitted; `fit_transform` fits the object in place. The
learned vocabulary is abstracted to a tag. -/
inductive Vectorizer where
  | unfitted : Vectorizer
  | fitted : Nat → Vectorizer
deriving DecidableEq, Repr

/-- A fitted `MultinomialNB`: `classes` are the distinct labels seen at fit
time, `choose` abstracts the decision function. `predict` always returns a
member of `classes` when `classes` is nonempty, exactly as sklearn does. -/
structure NBModel where
  classes : List String
  choose : String → Nat

/-- sklearn `model.predict([d])[0]`: one of the fit-time classes. -/
def NBModel.predict (m : NBModel) (d : String) : String :=
  m.classes.getD (m.choose d % m.classes.length) "Others"

/-- The mutable attributes set in `__init__` (lines 17-29): `openai_client`
(present iff an API key was configured), `ml_model`, `vectorizer`. -/
structure CatState where
  openai_client : Option Unit
  ml_model : Option NBModel
  vectorizer : Option Vectorizer

/-! ## Semantic classifier — `openai_categorization` (lines 52-83) -/

/-- `ExpenseCategorizer.openai_categorization` (lines 52-83). The remote
chat-completion call is the oracle `response`: `.error ()` for any raised
network/timeout/protocol/malformed-response failure, `.ok s` for a successful
call returning message content `s`. The `amount` argument only feeds the
prompt text, so it does not affect the returned category. -/
def openai_categorization (st : CatState) (description : String)
    (_amount : Option ℚ) (response : Except Unit String) : String :=
  match st.openai_client with
  | none => rule_based_categorization description
  | some _ =>
    match response with
    | .error _ => rule_based_categorization description
    | .ok s =>
      let category := trimStr s
      if categories.contains category then category else "Others"

/-! ## Statistical classifier — `ml_categorization` (lines 114-129) -/

/-- `ExpenseCategorizer.ml_categorization` (lines 114-129). If either slot is
unset, fall back to rules (line 116). `vectorizer.transform` raises
`NotFittedError` on an unfitted vectorizer, which the `except` catches and
degrades to rules; on a fitted vectorizer, transform of a singleton list and
`predict` do not raise. -/
def ml_categorization (st : CatState) (description : String) : String :=
  match st.ml_model with
  | none => rule_based_categorization description
  | some m =>
    match st.vectorizer with
    | none => rule_based_categorization description
    | some .unfitted => rule_based_categorization description
    | some (.fitted _) => m.predict description

/-! ## Orchestrator — `categorize_transaction` (lines 131-138) -/

/-- `ExpenseCategorizer.categorize_transaction` (lines 131-138). -/
def categorize_transaction (st : CatState) (description : String)
    (amount : Option ℚ) (method : String)
    (response : Except Unit String) : String :=
  if method = "openai" ∧ st.openai_client.isSome then
    openai_categorization st description amount response
  else if method = "ml" ∧ st.ml_model.isSome then
    ml_categorization st description
  else
    rule_based_categorization description

/-! ## Transaction rows

The canonical row after normalization: {date, description, category, amount}.
`DateVal` distinguishes a raw (string-typed) date column from one converted by
`pd.to_datetime`; the conversion keeps the underlying date but changes the
column's representation. -/

inductive DateVal where
  | raw : String → DateVal
  | parsed : String → DateVal
deriving DecidableEq, Repr

/-- `pd.to_datetime` on one cell. -/
def toDatetime : DateVal → DateVal
  | .raw s => .parsed s
  | .parsed s => .parsed s

structure Row where
  date : DateVal
  description : String
  amount : ℚ
  category : String
deriving DecidableEq, Repr

/-! ## Training — `train_ml_model` (lines 85-112) -/

/-- Outcome of a Python call: a returned value or a propagated exception. -/
inductive TrainOut where
  | returned : Bool → TrainOut
  | raised : TrainOut
deriving DecidableEq, Repr

/-- `ExpenseCategorizer.train_ml_model` (lines 85-112).

Line 87 refuses under 20 rows before touching any attribute. Otherwise line 95
assigns a freshly constructed (unfitted) `TfidfVectorizer` to
`self.vectorizer`, line 96 fits it in place via `fit_transform` — which can
raise (e.g. `ValueError: empty vocabulary` when every description is made of
stop words), in which case the exception propagates with the new unfitted
vectorizer already installed and the old `ml_model` untouched. On success the
fitted vocabulary and the classifier fitted on the 80/20 split are the library
outputs, passed in as the oracle `fit` and the parameter `newModel`
(`train_test_split` with `random_state=42` and `MultinomialNB.fit` on
non-negative TF-IDF features do not raise); both slots are then replaced and
`True` is returned. -/
def train_ml_model (st : CatState) (df : List Row)
    (fit : Except Unit Nat) (newModel : NBModel) : TrainOut × CatState :=
  if df.length < 20 then (.returned false, st)
  else
    let st1 : CatState := { st with vectorizer := some .unfitted }
    match fit with
    | .error _ => (.raised, st1)
    | .ok vocab =>
      let st2 : CatState := { st1 with vectorizer := some (.fitted vocab) }
      let st3 : CatState := { st2 with ml_model := some newModel }
      (.returned true, st3)

/-! ## Batch — `batch_categorize` (lines 140-150) -/

/-- `ExpenseCategorizer.batch_categorize` (lines 140-150): copy the frame,
then set the `category` column row-by-row from `categorize_transaction`
applied to that row's description and amount. The per-row remote response
oracle is `response` (only consulted on the openai path). -/
def batch_categorize (st : CatState) (df : List Row) (method : String)
    (response : String → Except Unit String) : List Row :=
  df.map (fun r =>
    { r with category := (categorize_transaction st r.description
        (some r.amount) method (response r.description)) })

/-! ## Analytics — src/insights.py -/

/-- `df['amount'].mean()` (0 on the empty frame stands in for NaN; every use
below is guarded the same way the NaN propagates in pandas). -/
def amountMean (xs : List ℚ) : ℚ :=
  xs.sum / (xs.length : ℚ)

/-- `df['amount'].std()` squared: pandas' sample variance (ddof = 1),
`Σ (x − μ)² / (n − 1)`. For n ≤ 1 pandas yields NaN and every comparison
against the NaN threshold is False; here the junk value 0 makes the n = 1
comparison `x > x` equally False, and n = 0 has no rows to compare. -/
def sampleVar (xs : List ℚ) : ℚ :=
  (xs.map (fun x => (x - amountMean xs) ^ 2)).sum / ((xs.length - 1 : ℕ) : ℚ)

/-- The boolean mask `df['amount'] > mean + 2 * std` of line 148, in the
square-free form that avoids the irrational `√variance`:
`a > μ + 2σ ⟺ a − μ > 0 ∧ (a − μ)² > 4σ²` (proved equivalent below in
`overThreshold_iff`). -/
def overThreshold (xs : List ℚ) (a : ℚ) : Bool :=
  decide (0 < a - amountMean xs) &&
  decide (4 * sampleVar xs < (a - amountMean xs) ^ 2)

/-- `InsightGenerator.detect_spending_anomalies` (lines 138-150). Line 140
assigns `df['date'] = pd.to_datetime(df['date'])` — an in-place update of the
caller's frame, so the result is the pair (state of the input frame after the
call, returned anomaly rows). The returned rows are the filtered rows of that
same frame, restricted to the four canonical columns (which are exactly the
columns of `Row`). -/
def detect_spending_anomalies (df : List Row) : List Row × List Row :=
  let df1 := df.map (fun r => { r with date := toDatetime r.date })
  let amounts := df1.map Row.amount
  (df1, df1.filter (fun r => overThreshold amounts r.amount))

/-- `detect_recurring_transactions` (lines 152-155, defined at module level).
`df.groupby(['description','amount']).size()` indexed by the distinct
(description, amount) keys, then kept where the size exceeds 2. (pandas sorts
the group keys; key order is irrelevant to every property claimed here, so
keys are listed in order of first appearance.) -/
def rkey (r : Row) : String × ℚ :=
  (r.description, r.amount)

def countKey (df : List Row) (k : String × ℚ) : Nat :=
  (df.filter (fun r => rkey r = k)).length

/-- Distinct elements in order of first appearance, past the accumulator of
elements already seen. -/
def dedupSeen {α : Type} [DecidableEq α] : List α → List α → List α
  | [], _ => []
  | a :: as, seen =>
      if a ∈ seen then dedupSeen as seen else a :: dedupSeen as (a :: seen)

def dedupFirst (l : List (String × ℚ)) : List (String × ℚ) :=
  dedupSeen l []

def detect_recurring_transactions (df : List Row) :
    List ((String × ℚ) × Nat) :=
  ((dedupFirst (df.map rkey)).map (fun k => (k, countKey df k))).filter
    (fun p => 2 < p.2)

/-- The figures computed by `generate_basic_insights` for a nonempty frame
(the function renders them into a report string; the string formatting carries
no further logic). -/
structure BasicReport where
  total : ℚ
  avg_transaction : ℚ
  num_transactions : Nat
  top_category : String
  top_amount : ℚ
  most_frequent : String
  frequency : Nat
  food_spending : ℚ
  food_savings : ℚ
deriving DecidableEq, Repr

/-- What `generate_basic_insights` returns: the early-exit string for an empty
frame, or the report figures. -/
inductive Insights where
  | noData : Insights
  | report : BasicReport → Insights
deriving DecidableEq, Repr

/-- `df.groupby('category')['amount'].sum()` as (key, sum) pairs, keys in
order of first appearance (pandas sorts keys; only definedness and the summed
values matter to the claims). -/
def dedupStr (l : List String) : List String :=
  dedupSeen l []

def categorySums (df : List Row) : List (String × ℚ) :=
  (dedupStr (df.map Row.category)).map (fun c =>
    (c, ((df.filter (fun r => r.category = c)).map Row.amount).sum))

/-- `series.idxmax()`: the first key attaining the maximum value; raises on an
empty series, hence `Option`. -/
def idxmax {β : Type} [LT β] [DecidableRel (α := β) (· < ·)] :
    List (String × β) → Option (String × β)
  | [] => none
  | p :: ps =>
    match idxmax ps with
    | none => some p
    | some q => if p.2 < q.2 then some q else some p

/-- `df['description'].value_counts()` as (description, count) pairs, keys in
order of first appearance. -/
def descriptionCounts (df : List Row) : List (String × Nat) :=
  (dedupStr (df.map Row.description)).map (fun d =>
    (d, (df.filter (fun r => r.description = d)).length))

/-- `value_counts().index[0]` / `.iloc[0]`: the most frequent description with
its count (`value_counts` orders by descending count, so position 0 carries
the maximal count; subscripting raises on an empty frame, hence `Option`). -/
def mostFrequent (df : List Row) : Option (String × Nat) :=
  idxmax (descriptionCounts df)

/-- `InsightGenerator.generate_basic_insights` (lines 80-116). `none` models a
raised exception (the two subscripting operations that raise on an empty
frame are `Option`-valued); no assignment to `df` occurs, so the input frame
is untouched. -/
def generate_basic_insights (df : List Row) : Option Insights :=
  if df.length = 0 then some .noData
  else do
    let total := (df.map Row.amount).sum
    let avg := amountMean (df.map Row.amount)
    let top ← idxmax (categorySums df)
    let freq ← mostFrequent df
    let food := ((df.filter (fun r => r.category = "Food")).map Row.amount).sum
    let savings := if 0 < food then food * (1 / 10) else 0
    some (.report
      { total := total, avg_transaction := avg,
        num_transactions := df.length,
        top_category := top.1, top_amount := top.2,
        most_frequent := freq.1, frequency := freq.2,
        food_spending := food, food_savings := savings })

/-! ## Normalizer — `DataProcessor.standardize_columns` (src/utils.py 27-54)

A raw uploaded table is a list of (column name, column cells) pairs; cell
contents are opaque strings here, since `standardize_columns` only moves
columns around. -/

/-- A raw data frame: named columns in order. -/
abbrev RawDf : Type := List (String × List String)

/-- `column_mapping` (lines 32-39). -/
def column_mapping : List (String × String) :=
  [("date", "date"),
   ("transaction description", "description"),
   ("category", "category"),
   ("amount", "amount"),
   ("type", "type")]

/-- `df.rename(columns=column_mapping)` on one name: mapped if present as a
key, otherwise unchanged. -/
def renameCol (c : String) : String :=
  match column_mapping.lookup c with
  | some c2 => c2
  | none => c

/-- `required_columns` (line 48). -/
def required_columns : List String :=
  ["date", "description", "category", "amount"]

/-- Column names after line 42's `str.lower().str.strip()` and line 45's
rename. -/
def normalizedNames (df : RawDf) : List String :=
  df.map (fun col => renameCol (trimStr (lowerStr col.1)))

/-- `DataProcessor.standardize_columns` (lines 27-54): lowercase and strip
the column names, rename through `column_mapping`, compute
`missing_cols` (line 49), raise `ValueError(f"Missing required columns:
{missing_cols}")` if any — carried as `.error missing_cols` — else return
`df[required_columns]`. pandas selection by a label list returns, for each
requested label in list order, EVERY column of the frame bearing that label
(in frame order) — so when several input columns normalize to the same
canonical name (`rename` happily produces duplicate labels), all of them
appear in the result. -/
def standardize_columns (df : RawDf) : Except (List String) RawDf :=
  let df1 : RawDf := df.map (fun col => (renameCol (trimStr (lowerStr col.1)), col.2))
  let missing := required_columns.filter
    (fun c => ¬ (df1.map Prod.fst).contains c)
  if missing.isEmpty then
    .ok (required_columns.flatMap (fun c => df1.filter (fun col => col.1 = c)))
  else
    .error missing

/-! ## Concrete fixtures used by witnesses and counterexamples -/

/-- A categorizer with no API key and nothing trained. -/
def stNone : CatState := ⟨none, none, none⟩

/-- A categorizer with an API key configured. -/
def stClient : CatState := ⟨some (), none, none⟩

/-- A model fitted on rows labeled with the out-of-set category
"Groceries" (the labels come straight from the user's `category` column). -/
def groceriesModel : NBModel := ⟨["Groceries"], fun _ => 0⟩

/-- A categorizer holding `groceriesModel` and a fitted vectorizer. -/
def stGroceries : CatState := ⟨none, some groceriesModel, some (.fitted 0)⟩

/-- A model fitted on rows labeled "Food". -/
def foodModel : NBModel := ⟨["Food"], fun _ => 0⟩

/-- A categorizer holding a previously trained model and fitted vectorizer. -/
def stTrained : CatState := ⟨none, some foodModel, some (.fitted 5)⟩

/-- A remote-response oracle on which every call raises. -/
def noResponse : String → Except Unit String := fun _ => .error ()

/-- A transaction row with the given amount and a string-typed date cell. -/
def mkRow (a : ℚ) : Row := ⟨.raw "2024-01-01", "txn", a, "Others"⟩

/-- Rows carrying the given amounts. -/
def exRows (xs : List ℚ) : List Row := xs.map mkRow

/-- The (description = "Coffee", amount = 5.0) row of the spec's recurring
example. -/
def coffeeRow : Row := ⟨.raw "2024-01-01", "Coffee", 5, "Food"⟩

/-! ## Theorems -/

/-- If no category before position `i` of the table has a matching pattern
and some pattern of the category at position `i` matches, the scan returns
that category. -/
theorem firstMatch_append (d : String) (pre post : List (String × List String))
    (c : String) (ps : List String)
    (hpre : ∀ q ∈ pre, ∀ p ∈ q.2, containsPat d p = false)
    (hps : ∃ p ∈ ps, containsPat d p = true) :
    firstMatch (pre ++ (c, ps) :: post) d = c := by
  induction pre with
  | nil =>
    obtain ⟨p, hp, hcp⟩ := hps
    simp only [List.nil_append, firstMatch]
    rw [if_pos (List.any_eq_true.mpr ⟨p, hp, hcp⟩)]
  | cons q pre ih =>
    obtain ⟨c0, ps0⟩ := q
    simp only [List.cons_append, firstMatch]
    rw [if_neg]
    · exact ih (fun q hq p hp => hpre q (List.mem_cons_of_mem _ hq) p hp)
    · intro h
      obtain ⟨p, hp, hcp⟩ := List.any_eq_true.mp h
      have := hpre (c0, ps0) (List.mem_cons_self _ _) p hp
      rw [this] at hcp
      exact Bool.false_ne_true hcp

/-- The scan only ever returns a key of the table or `Others`. -/
theorem firstMatch_mem_categories (t : List (String × List String))
    (d : String) (ht : ∀ q ∈ t, q.1 ∈ categories) :
    firstMatch t d ∈ categories := by
  induction t with
  | nil => simp [firstMatch, categories]
  | cons q rest ih =>
    obtain ⟨c, ps⟩ := q
    simp only [firstMatch]
    split
    · exact ht (c, ps) (List.mem_cons_self _ _)
    · exact ih (fun q hq => ht q (List.mem_cons_of_mem _ hq))

/-- The rule classifier's output is always in the fixed category list. -/
theorem rule_mem_categories (d : String) :
    rule_based_categorization d ∈ categories :=
  firstMatch_mem_categories _ _ (by decide)

/-- C3 (amended): for every description whose lowercase form contains a
keyword of some category of the rule table, and contains no keyword of any
category listed earlier in the table, `rule_based_categorization` returns
that keyword's category — regardless of letter case and of any surrounding
text. (The claim as frozen omits the "no earlier category matches" proviso
and is refuted by `C3_rule_keyword_cx`.) -/
theorem C3_rule_keyword (d : String) (pre post : List (String × List String))
    (c : String) (ps : List String)
    (htable : category_patterns = pre ++ (c, ps) :: post)
    (hpre : ∀ q ∈ pre, ∀ p ∈ q.2, containsPat (lowerStr d) p = false)
    (hps : ∃ p ∈ ps, containsPat (lowerStr d) p = true) :
    rule_based_categorization d = c := by
  unfold rule_based_categorization
  rw [htable]
  exact firstMatch_append _ _ _ _ _ hpre hps

/-- C3 witness: "Paid UBER Ride" contains the Transport keyword "uber" (in
mixed case, with surrounding text) and no Food keyword, and is classified
as Transport. -/
theorem C3_rule_keyword_witness :
    rule_based_categorization "Paid UBER Ride" = "Transport" :=
  C3_rule_keyword "Paid UBER Ride"
    [("Food", ["restaurant", "food", "cafe", "starbucks", "mcdonald",
               "pizza", "grocery", "supermarket"])]
    [("Entertainment", ["netflix", "spotify", "movie", "cinema", "game",
                        "concert", "theater"]),
     ("Shopping", ["amazon", "mall", "store", "shop", "purchase", "buy",
                   "clothes"]),
     ("Utilities", ["electric", "water", "internet", "phone", "rent",
                    "bill"]),
     ("Healthcare", ["hospital", "doctor", "pharmacy", "medical", "dental",
                     "health"]),
     ("Education", ["school", "college", "course", "book", "education",
                    "tuition"])]
    "Transport"
    ["uber", "taxi", "gas", "fuel", "parking", "metro", "bus", "train"]
    rfl (by decide) ⟨"uber", by decide, by decide⟩

/-- C3 counterexample: "uber restaurant" contains the known keyword "uber"
(mapped to Transport), yet the classifier returns Food, because the Food
pattern "restaurant" is tested first — the claim's "regardless of any
surrounding text" fails. -/
theorem C3_rule_keyword_cx :
    "uber" ∈ (["uber", "taxi", "gas", "fuel", "parking", "metro", "bus",
               "train"] : List String) ∧
    ("Transport", ["uber", "taxi", "gas", "fuel", "parking", "metro", "bus",
                   "train"]) ∈ category_patterns ∧
    containsPat (lowerStr "uber restaurant") "uber" = true ∧
    rule_based_categorization "uber restaurant" = "Food" ∧
    ("Food" : String) ≠ "Transport" :=
  ⟨by decide, by decide, by decide, by decide, by decide⟩

/-- C1 (amended): with no credential configured, or on any failure of the
remote call, `openai_categorization` returns exactly the rule classifier's
value (and by its type the caller never observes the transport error); but
when the call succeeds and the stripped response is not in the category
list, it returns `Others` — not the rule classifier's value (the frozen
claim's degradation-to-rules for out-of-set responses is refuted by
`C1_semantic_fallback_cx`). An in-set response is returned as is. -/
theorem C1_semantic_fallback (st : CatState) (d : String) (a : Option ℚ)
    (resp : Except Unit String) :
    (st.openai_client = none →
      openai_categorization st d a resp = rule_based_categorization d) ∧
    (∀ u, resp = .error u →
      openai_categorization st d a resp = rule_based_categorization d) ∧
    (∀ s, resp = .ok s → st.openai_client.isSome = true →
      categories.contains (trimStr s) = false →
      openai_categorization st d a resp = "Others") ∧
    (∀ s, resp = .ok s → st.openai_client.isSome = true →
      categories.contains (trimStr s) = true →
      openai_categorization st d a resp = trimStr s) := by
  refine ⟨?_, ?_, ?_, ?_⟩
  · intro h
    simp [openai_categorization, h]
  · intro u h
    subst h
    cases hc : st.openai_client <;> simp [openai_categorization, hc]
  · intro s h hcl hns
    subst h
    replace hns : trimStr s ∉ categories := by simpa using hns
    cases hc : st.openai_client
    · rw [hc] at hcl
      exact absurd hcl (by simp)
    · simp [openai_categorization, hc, hns]
  · intro s h hcl hin
    subst h
    replace hin : trimStr s ∈ categories := by simpa using hin
    cases hc : st.openai_client
    · rw [hc] at hcl
      exact absurd hcl (by simp)
    · simp [openai_categorization, hc, hin]

/-- C1 witness: the four cases at concrete inputs — no credential; raised
call; successful call with out-of-set response; successful call with in-set
response. -/
theorem C1_semantic_fallback_witness :
    openai_categorization stNone "uber" none (.ok "Food") =
      rule_based_categorization "uber" ∧
    openai_categorization stClient "taxi" none (.error ()) =
      rule_based_categorization "taxi" ∧
    openai_categorization stClient "taxi" none (.ok "Garbage") = "Others" ∧
    openai_categorization stClient "taxi" none (.ok " Food ") =
      trimStr " Food " :=
  ⟨(C1_semantic_fallback stNone "uber" none (.ok "Food")).1 rfl,
   (C1_semantic_fallback stClient "taxi" none (.error ())).2.1 () rfl,
   (C1_semantic_fallback stClient "taxi" none (.ok "Garbage")).2.2.1
     "Garbage" rfl rfl (by decide),
   (C1_semantic_fallback stClient "taxi" none (.ok " Food ")).2.2.2
     " Food " rfl rfl (by decide)⟩

/-- C1 counterexample: credential configured, the call succeeds with the
out-of-set response "Garbage" on description "uber": the code returns
"Others" while the rule classifier returns "Transport" — the claim's
required equality with `classify_rule` fails. -/
theorem C1_semantic_fallback_cx :
    categories.contains (trimStr "Garbage") = false ∧
    openai_categorization stClient "uber" none (.ok "Garbage") = "Others" ∧
    rule_based_categorization "uber" = "Transport" ∧
    openai_categorization stClient "uber" none (.ok "Garbage") ≠
      rule_based_categorization "uber" :=
  ⟨by decide, by decide, by decide, by decide⟩

/-- A fitted model's prediction is one of its fit-time classes. -/
theorem NBModel.predict_mem (m : NBModel) (h : m.classes ≠ []) (d : String) :
    m.predict d ∈ m.classes := by
  unfold NBModel.predict
  have hl : 0 < m.classes.length := List.length_pos.mpr h
  have hi : m.choose d % m.classes.length < m.classes.length :=
    Nat.mod_lt _ hl
  rw [List.getD_eq_getElem?_getD, List.getElem?_eq_getElem hi,
    Option.getD_some]
  exact List.getElem_mem hi

/-- C2 (amended): for every description, amount, strategy, remote response
and classifier state whose trained model (if any) has a nonempty class list
drawn from the fixed category list, `categorize_transaction` returns a
member of `CategorySet ∪ {Others}` (which is exactly `categories`). The
proviso on the trained model is necessary: the statistical path returns the
model's fit-time label unchecked, and training labels come from the user's
data (`C2_category_invariant_cx`). -/
theorem C2_category_invariant (st : CatState) (d : String) (a : Option ℚ)
    (method : String) (resp : Except Unit String)
    (hml : ∀ m, st.ml_model = some m →
      m.classes ≠ [] ∧ ∀ c ∈ m.classes, c ∈ categories) :
    categorize_transaction st d a method resp ∈ categories := by
  obtain ⟨oc, om, ov⟩ := st
  unfold categorize_transaction
  split
  · unfold openai_categorization
    cases oc with
    | none => exact rule_mem_categories d
    | some u =>
      cases resp with
      | error u2 => exact rule_mem_categories d
      | ok s =>
        simp only
        cases hcc : categories.contains (trimStr s) with
        | false =>
          rw [if_neg (by simp)]
          decide
        | true =>
          rw [if_pos rfl]
          simpa using hcc
  · split
    · unfold ml_categorization
      cases om with
      | none => exact rule_mem_categories d
      | some m =>
        cases ov with
        | none => exact rule_mem_categories d
        | some v =>
          cases v with
          | unfitted => exact rule_mem_categories d
          | fitted vocab =>
            obtain ⟨hne, hsub⟩ := hml m rfl
            exact hsub _ (NBModel.predict_mem m hne d)
    · exact rule_mem_categories d

/-- C2 witness: the invariant at a concrete input (untrained state, rule
strategy). -/
theorem C2_category_invariant_witness :
    categorize_transaction stNone "uber" none "rule" (.error ()) ∈
      categories :=
  C2_category_invariant stNone "uber" none "rule" (.error ())
    (fun m hm => by simp [stNone] at hm)

/-- C2 counterexample: a model trained on rows labeled "Groceries" (labels
come from the user's `category` column) makes the orchestrator return
"Groceries", which is outside `CategorySet ∪ {Others}` — the frozen claim's
unconditional invariant fails. -/
theorem C2_category_invariant_cx :
    categorize_transaction stGroceries "zzz" none "ml" (.error ()) =
      "Groceries" ∧
    "Groceries" ∉ categories :=
  ⟨rfl, by decide⟩

/-- C4 (amended): `train_ml_model` on fewer than 20 rows returns failure
with the state exactly unchanged, and a successful call replaces the
vectorizer and the classifier wholesale; but a call whose feature extraction
raises (e.g. `ValueError: empty vocabulary` when every description is made
of stop words) propagates the exception with a freshly constructed unfitted
vectorizer already installed and the prior classifier still in place — a
partially updated artifact, refuting the frozen claim
(`C4_train_atomicity_cx`). -/
theorem C4_train_atomicity (st : CatState) (df : List Row)
    (fit : Except Unit Nat) (m : NBModel) :
    (df.length < 20 → train_ml_model st df fit m = (.returned false, st)) ∧
    (∀ u, fit = .error u → 20 ≤ df.length →
      train_ml_model st df fit m =
        (.raised, { st with vectorizer := some .unfitted })) ∧
    (∀ v, fit = .ok v → 20 ≤ df.length →
      train_ml_model st df fit m =
        (.returned true,
         { st with vectorizer := some (.fitted v),
                   ml_model := some m })) := by
  refine ⟨?_, ?_, ?_⟩
  · intro h
    simp [train_ml_model, h]
  · intro u h hn
    subst h
    unfold train_ml_model
    rw [if_neg (by omega)]
  · intro v h hn
    subst h
    unfold train_ml_model
    rw [if_neg (by omega)]

/-- C4 witness: a 19-row set is refused with the trained state unchanged; a
20-row set with successful feature extraction replaces both slots. -/
theorem C4_train_atomicity_witness :
    train_ml_model stTrained (exRows (List.replicate 19 10)) (.ok 3)
      foodModel = (.returned false, stTrained) ∧
    train_ml_model stTrained (exRows (List.replicate 20 10)) (.ok 3)
      foodModel =
      (.returned true,
       { stTrained with vectorizer := some (.fitted 3),
                        ml_model := some foodModel }) :=
  ⟨(C4_train_atomicity stTrained (exRows (List.replicate 19 10)) (.ok 3)
      foodModel).1 (by simp [exRows]),
   (C4_train_atomicity stTrained (exRows (List.replicate 20 10)) (.ok 3)
      foodModel).2.2 3 rfl (by simp [exRows])⟩

/-- C4 counterexample: on a 20-row set whose feature extraction raises, the
call does not succeed, yet the vectorizer slot has changed while the old
classifier is still installed — the prior state is not preserved. -/
theorem C4_train_atomicity_cx :
    (train_ml_model stTrained (exRows (List.replicate 20 10)) (.error ())
      foodModel).1 = .raised ∧
    (train_ml_model stTrained (exRows (List.replicate 20 10)) (.error ())
      foodModel).2.vectorizer ≠ stTrained.vectorizer ∧
    (train_ml_model stTrained (exRows (List.replicate 20 10)) (.error ())
      foodModel).2.ml_model = stTrained.ml_model :=
  ⟨rfl, by decide, rfl⟩

/-- C7: `batch_categorize` returns a frame with one row per input row, in
input order: at every position the date, description and amount equal the
input row's, and only the category field is set — to the orchestrator's
output on that row's description and amount. The input frame itself is
copied, never mutated (`df.copy()` on line 142; the embedding returns a new
list). -/
theorem C7_batch_frame (st : CatState) (df : List Row) (method : String)
    (resp : String → Except Unit String) :
    (batch_categorize st df method resp).length = df.length ∧
    ∀ p ∈ (batch_categorize st df method resp).zip df,
      p.1.date = p.2.date ∧ p.1.description = p.2.description ∧
      p.1.amount = p.2.amount ∧
      p.1.category = categorize_transaction st p.2.description
        (some p.2.amount) method (resp p.2.description) := by
  constructor
  · simp [batch_categorize]
  · intro p hp
    unfold batch_categorize at hp
    induction df with
    | nil => simp at hp
    | cons r rs ih =>
      rw [List.map_cons, List.zip_cons_cons] at hp
      rcases List.mem_cons.mp hp with h | h
      · subst h
        exact ⟨rfl, rfl, rfl, rfl⟩
      · exact ih h

/-- C7 witness: batch classification of the one-row frame `[coffeeRow]`
yields one row whose category is the orchestrator's output for "Coffee". -/
theorem C7_batch_frame_witness :
    (batch_categorize stNone [coffeeRow] "rule" noResponse).length = 1 ∧
    (Row.mk (.raw "2024-01-01") "Coffee" 5 "Others").category =
      categorize_transaction stNone "Coffee" (some 5) "rule"
        (noResponse "Coffee") := by
  have h := C7_batch_frame stNone [coffeeRow] "rule" noResponse
  have h2 := h.2 (⟨.raw "2024-01-01", "Coffee", 5, "Others"⟩, coffeeRow)
    (by decide)
  exact ⟨by simpa using h.1, by simpa [coffeeRow] using h2.2.2.2⟩

/-- Deduplication keeps exactly the not-yet-seen members of the list. -/
theorem mem_dedupSeen {α : Type} [DecidableEq α] (l : List α) :
    ∀ (seen : List α) (a : α),
      a ∈ dedupSeen l seen ↔ a ∈ l ∧ a ∉ seen := by
  induction l with
  | nil => simp [dedupSeen]
  | cons b bs ih =>
    intro seen a
    unfold dedupSeen
    by_cases hb : b ∈ seen
    · rw [if_pos hb, ih]
      constructor
      · rintro ⟨h, hs⟩
        exact ⟨List.mem_cons_of_mem _ h, hs⟩
      · rintro ⟨h, hs⟩
        rcases List.mem_cons.mp h with rfl | h
        · exact absurd hb hs
        · exact ⟨h, hs⟩
    · rw [if_neg hb]
      simp only [List.mem_cons, ih]
      constructor
      · rintro (rfl | ⟨h, hs⟩)
        · exact ⟨Or.inl rfl, hb⟩
        · exact ⟨Or.inr h, fun hm => hs (Or.inr hm)⟩
      · rintro ⟨(rfl | h), hs⟩
        · exact Or.inl rfl
        · by_cases hab : a = b
          · exact Or.inl hab
          · refine Or.inr ⟨h, fun hm => ?_⟩
            rcases hm with h2 | h2
            · exact hab h2
            · exact hs h2

/-- Deduplication keeps exactly the members of the list. -/
theorem mem_dedupFirst (l : List (String × ℚ)) (a : String × ℚ) :
    a ∈ dedupFirst l ↔ a ∈ l := by
  rw [dedupFirst, mem_dedupSeen]
  simp

/-- A key has a positive row count exactly when some row carries it. -/
theorem countKey_pos_iff (df : List Row) (k : String × ℚ) :
    0 < countKey df k ↔ k ∈ df.map rkey := by
  unfold countKey
  constructor
  · intro h
    obtain ⟨r, hr⟩ := List.exists_mem_of_ne_nil _
      (List.ne_nil_of_length_pos h)
    rw [List.mem_filter] at hr
    exact List.mem_map.mpr ⟨r, hr.1, by simpa using hr.2⟩
  · intro h
    obtain ⟨r, hr, hk⟩ := List.mem_map.mp h
    exact List.length_pos.mpr (List.ne_nil_of_mem
      (List.mem_filter.mpr ⟨hr, by simpa using hk⟩))

/-- C8: recurring detection reports a (description, amount) group exactly
when its occurrence count in the frame strictly exceeds 2; concretely, the
("Coffee", 5.0) group occurring three times is reported with count 3, and
occurring twice is not reported. -/
theorem C8_recurring_threshold (df : List Row) (k : String × ℚ) :
    ((∃ n, (k, n) ∈ detect_recurring_transactions df) ↔
      2 < countKey df k) ∧
    detect_recurring_transactions [coffeeRow, coffeeRow, coffeeRow] =
      [(("Coffee", 5), 3)] ∧
    detect_recurring_transactions [coffeeRow, coffeeRow] = [] := by
  refine ⟨?_, by decide, by decide⟩
  constructor
  · rintro ⟨n, hn⟩
    unfold detect_recurring_transactions at hn
    rw [List.mem_filter] at hn
    obtain ⟨hmem, hgt⟩ := hn
    obtain ⟨k2, _, heq⟩ := List.mem_map.mp hmem
    injection heq with h1 h2
    subst h1
    subst h2
    simpa using hgt
  · intro h
    refine ⟨countKey df k, ?_⟩
    unfold detect_recurring_transactions
    rw [List.mem_filter]
    refine ⟨List.mem_map.mpr ⟨k, ?_, rfl⟩, by simpa using h⟩
    exact (mem_dedupFirst _ _).mpr
      ((countKey_pos_iff df k).mp (by omega))

/-- The sample variance is nonnegative. -/
theorem sampleVar_nonneg (xs : List ℚ) : 0 ≤ sampleVar xs := by
  unfold sampleVar
  apply div_nonneg
  · apply List.sum_nonneg
    intro x hx
    obtain ⟨y, _, rfl⟩ := List.mem_map.mp hx
    positivity
  · positivity

/-- The executable square-free threshold mask agrees with the source's
`amount > mean + 2 * std` (with the standard deviation as the real square
root of the sample variance). -/
theorem overThreshold_iff (xs : List ℚ) (a : ℚ) :
    overThreshold xs a = true ↔
      ((amountMean xs : ℚ) : ℝ) +
        2 * Real.sqrt ((sampleVar xs : ℚ) : ℝ) < (a : ℝ) := by
  unfold overThreshold
  simp only [Bool.and_eq_true, decide_eq_true_eq]
  have hv : (0 : ℝ) ≤ ((sampleVar xs : ℚ) : ℝ) := by
    exact_mod_cast sampleVar_nonneg xs
  have hs2 : Real.sqrt ((sampleVar xs : ℚ) : ℝ) ^ 2 =
      ((sampleVar xs : ℚ) : ℝ) := Real.sq_sqrt hv
  have hs0 : (0 : ℝ) ≤ Real.sqrt ((sampleVar xs : ℚ) : ℝ) :=
    Real.sqrt_nonneg _
  constructor
  · rintro ⟨h1, h2⟩
    have h1R : (0 : ℝ) < (a : ℝ) - ((amountMean xs : ℚ) : ℝ) := by
      exact_mod_cast h1
    have h2R : 4 * ((sampleVar xs : ℚ) : ℝ) <
        ((a : ℝ) - ((amountMean xs : ℚ) : ℝ)) ^ 2 := by
      exact_mod_cast h2
    have h4 : (2 * Real.sqrt ((sampleVar xs : ℚ) : ℝ)) ^ 2 <
        ((a : ℝ) - ((amountMean xs : ℚ) : ℝ)) ^ 2 := by
      rw [mul_pow, hs2]
      nlinarith
    have h5 := lt_of_pow_lt_pow_left₀ 2 (le_of_lt h1R) h4
    linarith
  · intro h
    have h5 : 2 * Real.sqrt ((sampleVar xs : ℚ) : ℝ) <
        (a : ℝ) - ((amountMean xs : ℚ) : ℝ) := by linarith
    have h1R : (0 : ℝ) < (a : ℝ) - ((amountMean xs : ℚ) : ℝ) := by
      nlinarith
    have h4 : (2 * Real.sqrt ((sampleVar xs : ℚ) : ℝ)) ^ 2 <
        ((a : ℝ) - ((amountMean xs : ℚ) : ℝ)) ^ 2 :=
      pow_lt_pow_left₀ h5 (by positivity) (by norm_num)
    rw [mul_pow, hs2] at h4
    constructor
    · exact_mod_cast h1R
    · exact_mod_cast h4

/-- Parsing the date column leaves the amount column unchanged. -/
theorem map_amount_parse (df : List Row) :
    (df.map (fun r => { r with date := toDatetime r.date })).map Row.amount =
      df.map Row.amount := by
  rw [List.map_map]
  rfl

/-- C5 (amended): anomaly detection flags exactly the rows whose amount
strictly exceeds mean plus two sample standard deviations of the full
supplied set (the flagged rows are not excluded first); for the amounts
[10,10,10,10,1000] the 1000 transaction is NOT flagged — and for
[10,10,10,10,10000] the 10000 transaction is NOT flagged either (threshold
2008 + 2·√19960020 ≈ 10943 > 10000), refuting the frozen claim's second
example (`C5_anomaly_threshold_cx`). -/
theorem C5_anomaly_threshold (df : List Row) (r : Row) :
    (r ∈ (detect_spending_anomalies df).2 ↔
      r ∈ (detect_spending_anomalies df).1 ∧
      ((amountMean (df.map Row.amount) : ℚ) : ℝ) +
        2 * Real.sqrt ((sampleVar (df.map Row.amount) : ℚ) : ℝ) <
        (r.amount : ℝ)) ∧
    (detect_spending_anomalies (exRows [10, 10, 10, 10, 1000])).2 = [] ∧
    (detect_spending_anomalies (exRows [10, 10, 10, 10, 10000])).2 = [] := by
  refine ⟨?_,
    by norm_num [detect_spending_anomalies, exRows, mkRow, toDatetime,
      overThreshold, amountMean, sampleVar, List.filter],
    by norm_num [detect_spending_anomalies, exRows, mkRow, toDatetime,
      overThreshold, amountMean, sampleVar, List.filter]⟩
  unfold detect_spending_anomalies
  simp only [List.mem_filter]
  constructor
  · rintro ⟨h1, h2⟩
    rw [map_amount_parse] at h2
    exact ⟨h1, (overThreshold_iff _ _).mp h2⟩
  · rintro ⟨h1, h2⟩
    refine ⟨h1, ?_⟩
    rw [map_amount_parse]
    exact (overThreshold_iff _ _).mpr h2

/-- C5 counterexample: on amounts [10,10,10,10,10000] the anomaly list is
empty — in particular the 10000 row, which is in the supplied set, is NOT
flagged, against the claim's "the 10000 transaction IS flagged". -/
theorem C5_anomaly_threshold_cx :
    mkRow 10000 ∈ exRows [10, 10, 10, 10, 10000] ∧
    (detect_spending_anomalies (exRows [10, 10, 10, 10, 10000])).2 = [] :=
  ⟨by decide,
   by norm_num [detect_spending_anomalies, exRows, mkRow, toDatetime,
     overThreshold, amountMean, sampleVar, List.filter]⟩

/-- `idxmax` is defined on every nonempty series. -/
theorem idxmax_isSome {β : Type} [LT β]
    [DecidableRel (α := β) (· < ·)] (l : List (String × β)) (h : l ≠ []) :
    (idxmax l).isSome = true := by
  match l with
  | [] => exact absurd rfl h
  | p :: ps =>
    simp only [idxmax]
    cases h2 : idxmax ps with
    | none => rfl
    | some q => by_cases hq : p.2 < q.2 <;> simp [hq]

/-- C6 (amended): the summary and recurring analytics read the frame without
writing to it (they are modeled as pure functions because the source assigns
nothing to `df`), and none of the three analytics raises: summary insights
are defined on every frame, the empty frame yields the no-data answer, empty
recurring and anomaly results are the empty list. Anomaly detection,
however, does write to its input: it overwrites the `date` column with
`pd.to_datetime`-parsed values (its post-call frame is the parsed copy of
the input, refuting "no column of the supplied data is modified" —
`C6_analytics_pure_cx`). -/
theorem C6_analytics_pure (df : List Row) :
    (generate_basic_insights df).isSome = true ∧
    (detect_spending_anomalies df).1 =
      df.map (fun r => { r with date := toDatetime r.date }) ∧
    generate_basic_insights [] = some .noData ∧
    detect_recurring_transactions [] = [] ∧
    (detect_spending_anomalies ([] : List Row)).2 = [] := by
  refine ⟨?_, rfl, rfl, rfl, rfl⟩
  cases df with
  | nil => rfl
  | cons r rs =>
    have hne1 : categorySums (r :: rs) ≠ [] := by
      simp [categorySums, dedupStr, dedupSeen, List.map_cons]
    have hne2 : descriptionCounts (r :: rs) ≠ [] := by
      simp [descriptionCounts, dedupStr, dedupSeen, List.map_cons]
    obtain ⟨t, ht⟩ := Option.isSome_iff_exists.mp (idxmax_isSome _ hne1)
    obtain ⟨f, hf⟩ := Option.isSome_iff_exists.mp (idxmax_isSome _ hne2)
    simp [generate_basic_insights, mostFrequent, ht, hf]

/-- C6 counterexample: anomaly detection over a one-row frame whose date
cell is still string-typed leaves the frame changed — the date column now
holds the parsed value. -/
theorem C6_analytics_pure_cx :
    (detect_spending_anomalies [coffeeRow]).1 ≠ [coffeeRow] := by
  decide

/-- The renamed frame's column names are `normalizedNames`. -/
theorem names_after_rename (df : RawDf) :
    ((df.map (fun col => (renameCol (trimStr (lowerStr col.1)), col.2))).map
      Prod.fst : List String) = normalizedNames df := by
  rw [List.map_map]
  rfl

/-- C9: whenever one or more required fields fail to resolve after case and
whitespace normalization and alias mapping, `standardize_columns` raises the
schema error carrying exactly the list of unresolved required fields — every
unresolved required field is named in it — and produces no normalized
output. -/
theorem C9_schema_error (df : RawDf)
    (h : ∃ c ∈ required_columns, c ∉ normalizedNames df) :
    standardize_columns df =
      .error (required_columns.filter
        (fun c => ¬ (normalizedNames df).contains c)) ∧
    required_columns.filter
      (fun c => ¬ (normalizedNames df).contains c) ≠ [] ∧
    ∀ c ∈ required_columns, c ∉ normalizedNames df →
      c ∈ required_columns.filter
        (fun c => ¬ (normalizedNames df).contains c) := by
  obtain ⟨c0, hc0r, hc0n⟩ := h
  have hc0m : c0 ∈ required_columns.filter
      (fun c => ¬ (normalizedNames df).contains c) :=
    List.mem_filter.mpr ⟨hc0r, by simpa using hc0n⟩
  have hne : required_columns.filter
      (fun c => ¬ (normalizedNames df).contains c) ≠ [] :=
    List.ne_nil_of_mem hc0m
  refine ⟨?_, hne, fun c hcr hcn =>
    List.mem_filter.mpr ⟨hcr, by simpa using hcn⟩⟩
  unfold standardize_columns
  simp only [names_after_rename]
  rw [if_neg (by simpa [List.isEmpty_iff] using hne)]

/-- C9 witness: an input offering only description and amount columns is
rejected with the error naming "date" and "category". -/
theorem C9_schema_error_witness :
    standardize_columns
      [("Transaction Description", ["a"]), ("Amount", ["2"])] =
      .error ["date", "category"] := by
  have h := C9_schema_error
    [("Transaction Description", ["a"]), ("Amount", ["2"])]
    ⟨"date", by decide, by decide⟩
  exact h.1.trans (by rfl)

/-- Among duplicate-free column names, filtering for one present name
yields exactly one column, bearing that name. -/
theorem filter_name_singleton (l : RawDf) (c : String)
    (hnd : (l.map Prod.fst).Nodup) (hc : c ∈ l.map Prod.fst) :
    ∃ p, l.filter (fun col => col.1 = c) = [p] ∧ p.1 = c := by
  induction l with
  | nil => simp at hc
  | cons q qs ih =>
    rw [List.map_cons, List.nodup_cons] at hnd
    rw [List.filter_cons]
    by_cases hq : q.1 = c
    · refine ⟨q, ?_, hq⟩
      rw [if_pos (by simpa using hq)]
      have hnil : qs.filter (fun col => col.1 = c) = [] := by
        rw [List.filter_eq_nil_iff]
        intro col hcol hcc
        exact hnd.1 (hq ▸ (by simpa using hcc : col.1 = c) ▸
          List.mem_map.mpr ⟨col, hcol, rfl⟩)
      rw [hnil]
    · rw [if_neg (by simpa using hq)]
      rcases List.mem_cons.mp hc with h2 | h2
      · exact absurd h2.symm hq
      · exact ih hnd.2 h2

/-- Selecting duplicate-free columns by a list of present names yields a
frame with exactly those names, in order. -/
theorem names_of_select (cs : List String) (l : RawDf)
    (hnd : (l.map Prod.fst).Nodup) (h : ∀ c ∈ cs, c ∈ l.map Prod.fst) :
    ((cs.flatMap (fun c => l.filter (fun col => col.1 = c))).map
      Prod.fst : List String) = cs := by
  induction cs with
  | nil => rfl
  | cons c cs ih =>
    obtain ⟨p, hp, hpc⟩ := filter_name_singleton l c hnd (h c (by simp))
    have ih2 := ih (fun c2 hc2 => h c2 (by simp [hc2]))
    simp [List.flatMap_cons, hp, hpc, ih2]

/-- C10 (amended): whenever column resolution succeeds, every column of the
normalized output bears one of the four canonical names date, description,
category, amount — extra input columns such as an account label or a type
column are absent — and each canonical name is present; when the normalized
input column names are duplicate-free the output is exactly the four
canonical columns in order. The duplicate-free proviso is necessary: when
several input columns normalize to the same canonical name (e.g. both
"Description" and "Transaction Description"), `df[required_columns]`
retains all of them and the output has more than four columns
(`C10_normalized_columns_cx`). -/
theorem C10_normalized_columns (df : RawDf) (out : RawDf)
    (h : standardize_columns df = .ok out) :
    (∀ p ∈ out, p.1 ∈ required_columns) ∧
    (∀ c ∈ required_columns, c ∈ out.map Prod.fst) ∧
    ((normalizedNames df).Nodup → out.map Prod.fst = required_columns) := by
  simp only [standardize_columns] at h
  split at h
  · next hemp =>
    injection h with h
    subst h
    have hall : ∀ c ∈ required_columns,
        c ∈ (df.map (fun col =>
          (renameCol (trimStr (lowerStr col.1)), col.2))).map Prod.fst := by
      intro c hc
      have hall2 := List.filter_eq_nil_iff.mp (List.isEmpty_iff.mp hemp)
      have := hall2 c hc
      simpa using this
    refine ⟨?_, ?_, ?_⟩
    · intro p hp
      rw [List.mem_flatMap] at hp
      obtain ⟨c, hc, hpf⟩ := hp
      rw [List.mem_filter] at hpf
      exact (by simpa using hpf.2 : p.1 = c) ▸ hc
    · intro c hc
      obtain ⟨col, hcol, hname⟩ := List.mem_map.mp (hall c hc)
      refine List.mem_map.mpr ⟨col, List.mem_flatMap.mpr ⟨c, hc, ?_⟩, hname⟩
      exact List.mem_filter.mpr ⟨hcol, by simpa using hname⟩
    · intro hnd
      apply names_of_select
      · rw [names_after_rename]
        exact hnd
      · exact hall
  · exact absurd h (by simp)

/-- C10 witness: an upload with extra Type and Account columns (and alias
and case/whitespace variants of the canonical names, all distinct after
normalization) normalizes to exactly the four canonical columns. -/
theorem C10_normalized_columns_witness :
    (([("date", ["1"]), ("description", ["a"]), ("category", ["c"]),
       ("amount", ["2"])] : RawDf)).map Prod.fst = required_columns :=
  (C10_normalized_columns
    [("Date ", ["1"]), ("Transaction Description", ["a"]),
     ("Category", ["c"]), ("Amount", ["2"]), ("Type", ["t"]),
     ("Account", ["x"])]
    [("date", ["1"]), ("description", ["a"]), ("category", ["c"]),
     ("amount", ["2"])]
    (by rfl)).2.2 (by decide)

/-- C10 counterexample: an input with both a "Description" and a
"Transaction Description" column (which normalize to the same canonical
name) passes resolution, and the normalized output keeps both — five
columns, not "exactly the four canonical columns". -/
theorem C10_normalized_columns_cx :
    standardize_columns
      [("Date", ["1"]), ("Description", ["x"]),
       ("Transaction Description", ["a"]), ("Category", ["c"]),
       ("Amount", ["2"])] =
      .ok [("date", ["1"]), ("description", ["x"]), ("description", ["a"]),
           ("category", ["c"]), ("amount", ["2"])] ∧
    (([("date", ["1"]), ("description", ["x"]), ("description", ["a"]),
       ("category", ["c"]), ("amount", ["2"])] : RawDf)).map Prod.fst ≠
      required_columns :=
  ⟨by rfl, by decide⟩

end FinanceTracker

